import Mathlib

set_option maxRecDepth 8000

/-!
Shallow embedding of the Preferences Matching composite microservice
(src/main.py and src/models/preferences_matching.py).

The service is a FastAPI app with two composite endpoints:
  POST /user-preferences        (create_user_preferences)
  GET  /user-preferences/{uid}  (get_user_preferences)
which orchestrate two upstream HTTP services (Users, Preferences) through
three adapter functions (fetch_user, create_preferences,
fetch_preferences_for_user).

Upstream HTTP is modelled by an environment of response functions; the
handlers additionally return the ordered list of upstream calls they issued,
so that "no call is made" claims are statable.  Upstream JSON bodies are
opaque type parameters, mirroring the Dict[str, Any] pass-through in the
source.  FastAPI/pydantic request validation (the UUID parse of user_id,
performed before the handler body runs) is modelled after CPython's
uuid.UUID string constructor.
-/

namespace PrefMatch

/-! ### Python UUID model

CPython uuid.UUID(hex) does:
  hex = hex.replace(chr(117)++..., ...)   -- remove every occurrence of "urn:" then of "uuid:"
  hex = hex.strip of braces; then remove every "-"
  require len(hex) == 32; int(hex, 16); require 0 <= int < 2^128.
int(s, 16) strips surrounding whitespace, takes an optional sign, an
optional 0x/0X prefix (an underscore may follow the prefix), and hex digits
separated by single underscores. -/

/-- UUID as stored by Python: the 128-bit integer value. -/
structure UUID where
  int : Nat
deriving DecidableEq

/-- Lowercase hex digit for a value below 16 (0-9 then a-f). -/
def hexChar (n : Nat) : Char :=
  if n < 10 then Char.ofNat (48 + n) else Char.ofNat (87 + n)

/-- The 32 hex digits of a 128-bit value, most significant first. -/
def hex32 (n : Nat) : List Char :=
  (List.range 32).map fun i => hexChar (n / 16 ^ (31 - i) % 16)

/-- str(uuid) in Python: canonical lowercase 8-4-4-4-12 hyphenated form. -/
def uuidStr (u : UUID) : String :=
  let d := hex32 u.int
  String.mk (d.take 8) ++ "-" ++ String.mk ((d.drop 8).take 4) ++ "-" ++
    String.mk ((d.drop 12).take 4) ++ "-" ++ String.mk ((d.drop 16).take 4) ++
    "-" ++ String.mk (d.drop 20)

/-- Value of a hex digit character, if it is one. -/
def hexVal (c : Char) : Option Nat :=
  if 48 ≤ c.toNat ∧ c.toNat ≤ 57 then some (c.toNat - 48)
  else if 97 ≤ c.toNat ∧ c.toNat ≤ 102 then some (c.toNat - 87)
  else if 65 ≤ c.toNat ∧ c.toNat ≤ 70 then some (c.toNat - 55)
  else none

def isHexDigit (c : Char) : Bool := (hexVal c).isSome

/-- Does the pattern occur at the head of the list? -/
def matchesAt : List Char → List Char → Bool
  | [], _ => true
  | _ :: _, [] => false
  | p :: ps, c :: cs => p = c && matchesAt ps cs

/-- One step of Python str.replace(pat, empty): remove non-overlapping
occurrences left to right.  Fuel-indexed for structural recursion; fuel equal
to the list length suffices because every step consumes at least one
character. -/
def removeAllFuel (pat : List Char) : Nat → List Char → List Char
  | 0, s => s
  | _ + 1, [] => []
  | fuel + 1, c :: rest =>
    if matchesAt pat (c :: rest) then
      removeAllFuel pat fuel (rest.drop (pat.length - 1))
    else c :: removeAllFuel pat fuel rest

/-- Python s.replace(pat, empty string) for a nonempty pattern. -/
def removeAll (pat : List Char) (s : List Char) : List Char :=
  removeAllFuel pat s.length s

/-- Is the character an opening or closing curly brace? -/
def isBrace (c : Char) : Bool := c.toNat = 123 || c.toNat = 125

/-- Python s.strip of the two brace characters: drop them from both ends. -/
def stripBraces (s : List Char) : List Char :=
  ((s.dropWhile isBrace).reverse.dropWhile isBrace).reverse

/-- Tail of a hex digit group: digits optionally separated by single
underscores (no leading, trailing, or doubled underscore). -/
def hexTail : List Char → Bool
  | [] => true
  | c :: rest =>
    if c = '_' then
      match rest with
      | [] => false
      | d :: rest2 => isHexDigit d && hexTail rest2
    else isHexDigit c && hexTail rest

/-- A nonempty hex digit group in Python int-literal form. -/
def hexGroupOk : List Char → Bool
  | [] => false
  | c :: rest => isHexDigit c && hexTail rest

/-- Numeric value of a hex digit group (underscores skipped). -/
def hexValue (cs : List Char) : Nat :=
  (cs.filter fun c => c != '_').foldl (fun acc c => 16 * acc + (hexVal c).getD 0) 0

/-- Magnitude part of Python int(s, 16): optional 0x/0X prefix (an underscore
may directly follow it), then a hex digit group. -/
def pyInt16Mag (s : List Char) : Option Nat :=
  let body :=
    match s with
    | c0 :: cx :: rest =>
      if c0 = '0' ∧ (cx = 'x' ∨ cx = 'X') then
        match rest with
        | u :: rest2 => if u = '_' then rest2 else rest
        | [] => ([] : List Char)
      else s
    | _ => s
  if hexGroupOk body then some (hexValue body) else none

/-- Python int(s, 16) on a character list: strip surrounding whitespace,
optional sign, then magnitude. -/
def pyInt16 (s : List Char) : Option Int :=
  let t := ((s.dropWhile Char.isWhitespace).reverse.dropWhile Char.isWhitespace).reverse
  match t with
  | [] => none
  | c :: rest =>
    if c = '+' then (pyInt16Mag rest).map Int.ofNat
    else if c = '-' then (pyInt16Mag rest).map fun n => -(Int.ofNat n)
    else (pyInt16Mag t).map Int.ofNat

/-- CPython uuid.UUID(hex): remove "urn:" then "uuid:" occurrences, strip
braces, remove hyphens, require exactly 32 characters, parse base 16,
require a 128-bit nonnegative value. -/
def pyUUID (s : String) : Option UUID :=
  let h1 := removeAll [ 'u', 'u', 'i', 'd', ':'] (removeAll [ 'u', 'r', 'n', ':'] s.data)
  let h2 := (stripBraces h1).filter fun c => c != '-'
  if h2.length = 32 then
    match pyInt16 h2 with
    | none => none
    | some i => if 0 ≤ i ∧ i < 2 ^ 128 then some ⟨i.toNat⟩ else none
  else none

/-! ### Pydantic models (src/models/preferences_matching.py)

Python Optional[int] is Option Int (unbounded ints); the models declare no
value constraints (in particular no lower bound on the numeric fields). -/

/-- PreferenceCreate: payload sent to the preferences microservice. -/
structure PreferenceCreate where
  user_id : UUID
  max_budget : Option Int := none
  min_size : Option Int := none
  location_area : Option (List String) := none
  rooms : Option Int := none
deriving DecidableEq

/-- UserPreferencesCreateRequest: payload the frontend sends to this
composite microservice (validated body of POST /user-preferences). -/
structure UserPreferencesCreateRequest where
  user_id : UUID
  max_budget : Option Int := none
  min_size : Option Int := none
  location_area : Option (List String) := none
  rooms : Option Int := none
deriving DecidableEq

/-- CompositeUserPreferences: what the create endpoint returns.  The user and
preferences bodies are opaque upstream JSON (Dict[str, Any] in the source),
kept as type parameters; links is a string-to-string mapping, kept as the
ordered key-value list of the Python dict literal. -/
structure CompositeUserPreferences (β γ : Type) where
  user : β
  preferences : γ
  links : List (String × String)
deriving DecidableEq

/-- CompositeUserPreferencesList: what the read endpoint returns
(0..N preference records). -/
structure CompositeUserPreferencesList (β γ : Type) where
  user : β
  preferences : List γ
  links : List (String × String)
deriving DecidableEq

/-! ### HTTP layer model (src/main.py)

An upstream HTTP response has a status code, raw body text (resp.text) and a
parsed JSON body (resp.json()), the latter opaque.  The environment gives the
configured base URLs and the upstream responses; handlers record the ordered
list of upstream calls they issue. -/

/-- Upstream httpx response: status code, raw text, parsed JSON body. -/
structure UpstreamResp (α : Type) where
  status_code : Nat
  text : String
  json : α
deriving DecidableEq

/-- FastAPI HTTPException payload: status code and detail string. -/
structure HTTPException where
  status_code : Nat
  detail : String
deriving DecidableEq

/-- Upstream world: configured base URLs (USERS_SERVICE_BASE_URL,
PREFERENCES_SERVICE_BASE_URL) and the responses of the two upstream
services to each request the composite can send. -/
structure Env (β γ : Type) where
  usersBase : String
  prefsBase : String
  userResp : UUID → UpstreamResp β
  prefCreateResp : PreferenceCreate → UpstreamResp γ
  prefGetResp : UUID → UpstreamResp γ

/-- One outbound upstream call, as issued by the adapters:
GET to the Users service, POST to the Preferences service create endpoint,
GET to the Preferences service by user id. -/
inductive Call where
  | usersGet (user_id : UUID)
  | prefsPost (payload : PreferenceCreate)
  | prefsGet (user_id : UUID)
deriving DecidableEq

/-- Outcome of one inbound request: a success response with HTTP status and
body, or an error response (HTTPException / validation error) with status
and detail. -/
inductive EndpointResult (α : Type) where
  | success (status_code : Nat) (body : α)
  | errorResp (status_code : Nat) (detail : String)
deriving DecidableEq

/-! ### Upstream client adapters (src/main.py lines 60-109) -/

/-- create_preferences: POST to the Preferences service root; 200 or 201 is
success returning resp.json(); anything else raises HTTPException 502 with
the upstream status code and body text in the detail. -/
def create_preferences (env : Env β γ) (pref_payload : PreferenceCreate) :
    Except HTTPException γ :=
  let resp := env.prefCreateResp pref_payload
  if resp.status_code = 200 ∨ resp.status_code = 201 then
    Except.ok resp.json
  else
    Except.error ⟨502, "Preferences microservice error on create: " ++
      toString resp.status_code ++ " " ++ resp.text⟩

/-- fetch_preferences_for_user: GET prefsBase/userId; 404 means no
preferences (empty list); any other non-200 raises HTTPException 502; a 200
single-object body is wrapped into a one-element list. -/
def fetch_preferences_for_user (env : Env β γ) (user_id : UUID) :
    Except HTTPException (List γ) :=
  let resp := env.prefGetResp user_id
  if resp.status_code = 404 then
    Except.ok []
  else if resp.status_code ≠ 200 then
    Except.error ⟨502, "Preferences microservice error on get: " ++
      toString resp.status_code ++ " " ++ resp.text⟩
  else
    Except.ok [resp.json]

/-- fetch_user: GET usersBase/users/userId; 404 raises HTTPException 404,
any other non-200 raises HTTPException 502, 200 returns resp.json(). -/
def fetch_user (env : Env β γ) (user_id : UUID) : Except HTTPException β :=
  let resp := env.userResp user_id
  if resp.status_code = 404 then
    Except.error ⟨404, "User not found in Users microservice"⟩
  else if resp.status_code ≠ 200 then
    Except.error ⟨502, "Users microservice error: " ++
      toString resp.status_code ++ " " ++ resp.text⟩
  else
    Except.ok resp.json

/-! ### Composite endpoint handlers (src/main.py lines 126-194)

Each handler returns its HTTP outcome together with the ordered list of
upstream calls issued; an adapter's call is recorded exactly when the
handler reaches that adapter invocation. -/

/-- Request-assembly step of the create flow (src/main.py lines 145-151):
build the PreferenceCreate payload from the request fields, field by field. -/
def assemble_pref_payload (payload : UserPreferencesCreateRequest) :
    PreferenceCreate :=
  { user_id := payload.user_id
    max_budget := payload.max_budget
    min_size := payload.min_size
    location_area := payload.location_area
    rooms := payload.rooms }

/-- create_user_preferences (POST /user-preferences, status_code 201):
fetch the user, build the PreferenceCreate payload from the request fields,
create the preferences, return user + preference + hypermedia links.  An
HTTPException raised by an adapter becomes the error response. -/
def create_user_preferences (env : Env β γ)
    (payload : UserPreferencesCreateRequest) :
    EndpointResult (CompositeUserPreferences β γ) × List Call :=
  match fetch_user env payload.user_id with
  | Except.error e =>
    (EndpointResult.errorResp e.status_code e.detail,
     [Call.usersGet payload.user_id])
  | Except.ok user =>
    let pref_payload : PreferenceCreate := assemble_pref_payload payload
    match create_preferences env pref_payload with
    | Except.error e =>
      (EndpointResult.errorResp e.status_code e.detail,
       [Call.usersGet payload.user_id, Call.prefsPost pref_payload])
    | Except.ok pref =>
      (EndpointResult.success 201
        { user := user
          preferences := pref
          links := [
            ("self", "/user-preferences/" ++ uuidStr payload.user_id),
            ("user", env.usersBase ++ "/users/" ++ uuidStr payload.user_id),
            ("preferences", env.prefsBase ++ "/" ++ uuidStr payload.user_id)] },
       [Call.usersGet payload.user_id, Call.prefsPost pref_payload])

/-- get_user_preferences (GET /user-preferences/userId, default status 200):
fetch the user, fetch the preferences for the user, return user +
preference list + hypermedia links. -/
def get_user_preferences (env : Env β γ) (user_id : UUID) :
    EndpointResult (CompositeUserPreferencesList β γ) × List Call :=
  match fetch_user env user_id with
  | Except.error e =>
    (EndpointResult.errorResp e.status_code e.detail, [Call.usersGet user_id])
  | Except.ok user =>
    match fetch_preferences_for_user env user_id with
    | Except.error e =>
      (EndpointResult.errorResp e.status_code e.detail,
       [Call.usersGet user_id, Call.prefsGet user_id])
    | Except.ok prefs =>
      (EndpointResult.success 200
        { user := user
          preferences := prefs
          links := [
            ("self", "/user-preferences/" ++ uuidStr user_id),
            ("user", env.usersBase ++ "/users/" ++ uuidStr user_id),
            ("preferences", env.prefsBase ++ "/" ++ uuidStr user_id)] },
       [Call.usersGet user_id, Call.prefsGet user_id])

/-! ### FastAPI request-validation layer

Pydantic parses the request before the handler body runs: the user_id field
(body for create, path for read) is parsed with uuid.UUID; on failure
FastAPI answers 422 Unprocessable Entity and the handler is never invoked,
so no upstream call is made.  The other fields of
UserPreferencesCreateRequest are Optional[int] / Optional[List[str]] with no
value constraints.  The 422 body is FastAPI-generated field-level detail,
abstracted here as a fixed marker string. -/

/-- Raw inbound create request: the user_id as the raw string of the JSON
body, the remaining fields as typed optionals (no constraints to check). -/
structure RawCreateRequest where
  user_id : String
  max_budget : Option Int := none
  min_size : Option Int := none
  location_area : Option (List String) := none
  rooms : Option Int := none

/-- Detail marker for FastAPI's 422 request-validation response. -/
def validationErrorDetail : String := "request validation error"

/-- Pydantic validation of UserPreferencesCreateRequest: parse user_id as a
UUID; other fields carry over unchanged (no constraints declared). -/
def parse_create_request (raw : RawCreateRequest) :
    Option UserPreferencesCreateRequest :=
  (pyUUID raw.user_id).map fun uid =>
    { user_id := uid
      max_budget := raw.max_budget
      min_size := raw.min_size
      location_area := raw.location_area
      rooms := raw.rooms }

/-- Full create route: request validation, then the handler. -/
def handle_create (env : Env β γ) (raw : RawCreateRequest) :
    EndpointResult (CompositeUserPreferences β γ) × List Call :=
  match parse_create_request raw with
  | none => (EndpointResult.errorResp 422 validationErrorDetail, [])
  | some payload => create_user_preferences env payload

/-- Full read route: path-parameter validation, then the handler. -/
def handle_get (env : Env β γ) (raw_user_id : String) :
    EndpointResult (CompositeUserPreferencesList β γ) × List Call :=
  match pyUUID raw_user_id with
  | none => (EndpointResult.errorResp 422 validationErrorDetail, [])
  | some uid => get_user_preferences env uid

/-! ### Concrete fixtures for witnesses and counterexamples -/

/-- Concrete user id used by the test fixtures. -/
def u0 : UUID := ⟨0x12345678123456781234567812345678⟩

/-- Canonical string form of u0. -/
def uuid0 : String := "12345678-1234-5678-1234-567812345678"

/-- Concrete valid create request (the scenario of the spec, section 8). -/
def payload0 : UserPreferencesCreateRequest :=
  { user_id := u0, max_budget := some 2000, rooms := some 2 }

/-- Environment where every upstream call succeeds. -/
def envOk : Env String String :=
  { usersBase := "https://users.example"
    prefsBase := "http://prefs.example"
    userResp := fun _ => ⟨200, "", "user-body"⟩
    prefCreateResp := fun _ => ⟨201, "", "pref-body"⟩
    prefGetResp := fun _ => ⟨200, "", "pref-body"⟩ }

/-- Environment where the Users service answers 404. -/
def envUser404 : Env String String :=
  { envOk with userResp := fun _ => ⟨404, "no such user", "x"⟩ }

/-- Environment where the Users service answers 201 (a success status other
than 200, and below 400). -/
def envUser201 : Env String String :=
  { envOk with userResp := fun _ => ⟨201, "created", "x"⟩ }

/-- Environment where the Users service answers 500. -/
def envUser500 : Env String String :=
  { envOk with userResp := fun _ => ⟨500, "boom", "x"⟩ }

/-- Environment where the user exists but the Preferences service answers
500 on create and on read. -/
def envPrefs500 : Env String String :=
  { envOk with
    prefCreateResp := fun _ => ⟨500, "prefs down", "x"⟩
    prefGetResp := fun _ => ⟨500, "prefs down", "x"⟩ }

/-- Environment where the user exists and has no stored preferences
(Preferences service answers 404 on read). -/
def envPrefsEmpty : Env String String :=
  { envOk with prefGetResp := fun _ => ⟨404, "not found", "x"⟩ }

/-- Environment whose Preferences service echoes the posted payload back. -/
def envEcho : Env String PreferenceCreate :=
  { usersBase := "https://users.example"
    prefsBase := "http://prefs.example"
    userResp := fun _ => ⟨200, "", "user-body"⟩
    prefCreateResp := fun q => ⟨201, "", q⟩
    prefGetResp := fun _ => ⟨404, "", { user_id := u0 }⟩ }

/-- Raw create request carrying a negative max_budget. -/
def rawNeg : RawCreateRequest := { user_id := uuid0, max_budget := some (-1) }

/-- Raw create request whose user_id is not a valid UUID string. -/
def rawBad : RawCreateRequest := { user_id := "not-a-uuid" }

/-! ### Shared lemmas -/

/-- The first upstream call of the create flow is always the Users GET. -/
theorem create_trace_head (env : Env β γ)
    (payload : UserPreferencesCreateRequest) :
    (create_user_preferences env payload).2.head? =
      some (Call.usersGet payload.user_id) := by
  rcases h : fetch_user env payload.user_id with e | user
  · simp [create_user_preferences, h]
  · rcases h2 : create_preferences env (assemble_pref_payload payload) with e | pref <;>
      simp [create_user_preferences, h, h2]

/-- The first upstream call of the read flow is always the Users GET. -/
theorem read_trace_head (env : Env β γ) (uid : UUID) :
    (get_user_preferences env uid).2.head? = some (Call.usersGet uid) := by
  rcases h : fetch_user env uid with e | user
  · simp [get_user_preferences, h]
  · rcases h2 : fetch_preferences_for_user env uid with e | prefs <;>
      simp [get_user_preferences, h, h2]

/-! ### Claims -/

/-- C1: in the create flow, the Preferences create call is issued only after
fetch_user returned successfully for the request's user id (the Users GET is
always the first call, and a Preferences POST appears in the trace only if
fetch_user succeeded); in the read flow, the Preferences GET likewise appears
only after fetch_user succeeded. -/
theorem claim1 (envC envR : Env β γ) (payload : UserPreferencesCreateRequest)
    (uid : UUID) :
    (create_user_preferences envC payload).2.head? =
      some (Call.usersGet payload.user_id) ∧
    (∀ p, Call.prefsPost p ∈ (create_user_preferences envC payload).2 →
      ∃ user, fetch_user envC payload.user_id = Except.ok user) ∧
    (get_user_preferences envR uid).2.head? = some (Call.usersGet uid) ∧
    (∀ v, Call.prefsGet v ∈ (get_user_preferences envR uid).2 →
      ∃ user, fetch_user envR uid = Except.ok user) := by
  refine ⟨create_trace_head envC payload, ?_, read_trace_head envR uid, ?_⟩
  · intro p hp
    rcases h : fetch_user envC payload.user_id with e | user
    · simp [create_user_preferences, h] at hp
    · exact ⟨user, rfl⟩
  · intro v hv
    rcases h : fetch_user envR uid with e | user
    · simp [get_user_preferences, h] at hv
    · exact ⟨user, rfl⟩

/-- Witness for C1 at a concrete all-success environment: the create trace
does start with the Users GET, and both Preferences calls happen only in
runs where fetch_user in fact succeeded. -/
theorem claim1_witness :
    (create_user_preferences envOk payload0).2.head? =
      some (Call.usersGet u0) ∧
    (∃ user, fetch_user envOk u0 = Except.ok user) ∧
    (∃ user, fetch_user envPrefsEmpty u0 = Except.ok user) := by
  refine ⟨(claim1 envOk envOk payload0 u0).1, ?_, ?_⟩
  · exact (claim1 envOk envOk payload0 u0).2.1
      (assemble_pref_payload payload0) (by decide)
  · exact (claim1 envPrefsEmpty envPrefsEmpty payload0 u0).2.2.2 u0 (by decide)

/-- C3 counterexample: the claim says fetch_user yields UpstreamError only
for upstream statuses at least 400, but for upstream status 201 (below 400
and not 200) the code raises HTTPException 502 as well. -/
theorem claim3_counterexample :
    fetch_user envUser201 u0 =
      Except.error ⟨502, "Users microservice error: 201 created"⟩ ∧
    201 < 400 := by
  constructor
  · rfl
  · decide

/-- C3 amended: fetch_user returns the parsed body on upstream 200, the
404 NotFound error on upstream 404, and the 502 UpstreamError (with the
upstream status and body text in the detail) on every other status, whether
or not that status is at least 400. -/
theorem claim3_amended (env : Env β γ) (uid : UUID) :
    ((env.userResp uid).status_code = 200 →
      fetch_user env uid = Except.ok (env.userResp uid).json) ∧
    ((env.userResp uid).status_code = 404 →
      fetch_user env uid =
        Except.error ⟨404, "User not found in Users microservice"⟩) ∧
    ((env.userResp uid).status_code ≠ 200 →
      (env.userResp uid).status_code ≠ 404 →
      fetch_user env uid = Except.error ⟨502, "Users microservice error: " ++
        toString (env.userResp uid).status_code ++ " " ++
        (env.userResp uid).text⟩) := by
  refine ⟨fun h => ?_, fun h => ?_, fun h1 h2 => ?_⟩
  · simp [fetch_user, h]
  · simp [fetch_user, h]
  · simp [fetch_user, h1, h2]

/-- Witness for C3 amended at the three concrete status classes. -/
theorem claim3_witness :
    fetch_user envOk u0 = Except.ok "user-body" ∧
    fetch_user envUser404 u0 =
      Except.error ⟨404, "User not found in Users microservice"⟩ ∧
    fetch_user envUser500 u0 = Except.error ⟨502,
      "Users microservice error: " ++ toString (500 : Nat) ++ " " ++ "boom"⟩ := by
  exact ⟨(claim3_amended envOk u0).1 rfl, (claim3_amended envUser404 u0).2.1 rfl,
    (claim3_amended envUser500 u0).2.2 (by decide) (by decide)⟩

/-- C4: create_preferences succeeds exactly on upstream statuses 200 and
201, returning the parsed body; on any other status it yields the 502
UpstreamError whose detail contains the upstream status code and the
upstream body text, and the create flow surfaces that 502. -/
theorem claim4 (env : Env β γ) (payload : UserPreferencesCreateRequest)
    (p : PreferenceCreate) :
    ((env.prefCreateResp p).status_code = 200 ∨
        (env.prefCreateResp p).status_code = 201 →
      create_preferences env p = Except.ok (env.prefCreateResp p).json) ∧
    (¬ ((env.prefCreateResp p).status_code = 200 ∨
        (env.prefCreateResp p).status_code = 201) →
      create_preferences env p = Except.error ⟨502,
        "Preferences microservice error on create: " ++
          toString (env.prefCreateResp p).status_code ++ " " ++
          (env.prefCreateResp p).text⟩ ∧
      (∃ a b, "Preferences microservice error on create: " ++
          toString (env.prefCreateResp p).status_code ++ " " ++
          (env.prefCreateResp p).text =
        a ++ toString (env.prefCreateResp p).status_code ++ b) ∧
      (∃ c, "Preferences microservice error on create: " ++
          toString (env.prefCreateResp p).status_code ++ " " ++
          (env.prefCreateResp p).text = c ++ (env.prefCreateResp p).text)) ∧
    (∀ user, fetch_user env payload.user_id = Except.ok user →
      ¬ ((env.prefCreateResp (assemble_pref_payload payload)).status_code = 200 ∨
         (env.prefCreateResp (assemble_pref_payload payload)).status_code = 201) →
      (create_user_preferences env payload).1 = EndpointResult.errorResp 502
        ("Preferences microservice error on create: " ++
          toString (env.prefCreateResp (assemble_pref_payload payload)).status_code ++
          " " ++ (env.prefCreateResp (assemble_pref_payload payload)).text)) := by
  refine ⟨fun h => ?_, fun h => ⟨?_, ?_, ?_⟩, fun user hu hbad => ?_⟩
  · rcases h with h | h <;> simp [create_preferences, h]
  · simp [create_preferences, h]
  · exact ⟨"Preferences microservice error on create: ",
      " " ++ (env.prefCreateResp p).text, by rw [String.append_assoc]⟩
  · exact ⟨"Preferences microservice error on create: " ++
      toString (env.prefCreateResp p).status_code ++ " ", by
        rw [String.append_assoc]⟩
  · have hcp : create_preferences env (assemble_pref_payload payload) =
        Except.error ⟨502, "Preferences microservice error on create: " ++
          toString (env.prefCreateResp (assemble_pref_payload payload)).status_code ++
          " " ++ (env.prefCreateResp (assemble_pref_payload payload)).text⟩ := by
      simp [create_preferences, hbad]
    simp [create_user_preferences, hu, hcp]

/-- Witness for C4: upstream 201 is accepted; upstream 500 yields the 502
error with status and body in the detail, and the create flow surfaces it. -/
theorem claim4_witness :
    create_preferences envOk (assemble_pref_payload payload0) =
      Except.ok "pref-body" ∧
    create_preferences envPrefs500 (assemble_pref_payload payload0) =
      Except.error ⟨502, "Preferences microservice error on create: " ++
        toString (500 : Nat) ++ " " ++ "prefs down"⟩ ∧
    (create_user_preferences envPrefs500 payload0).1 =
      EndpointResult.errorResp 502
        ("Preferences microservice error on create: " ++
          toString (500 : Nat) ++ " " ++ "prefs down") := by
  refine ⟨(claim4 envOk payload0 (assemble_pref_payload payload0)).1 (Or.inr rfl),
    ((claim4 envPrefs500 payload0 (assemble_pref_payload payload0)).2.1
      (by decide)).1, ?_⟩
  exact (claim4 envPrefs500 payload0 (assemble_pref_payload payload0)).2.2
    "user-body" rfl (by decide)

/-- C2 counterexample: the models declare no lower bound on the optional
numeric fields, so a create request with max_budget = -1 passes request
validation, both upstream calls are issued, and the flow returns 201 rather
than a validation error. -/
theorem claim2_counterexample :
    (handle_create envOk rawNeg).1 = EndpointResult.success 201
      { user := "user-body", preferences := "pref-body",
        links := [
          ("self", "/user-preferences/12345678-1234-5678-1234-567812345678"),
          ("user",
            "https://users.example/users/12345678-1234-5678-1234-567812345678"),
          ("preferences",
            "http://prefs.example/12345678-1234-5678-1234-567812345678")] } ∧
    (handle_create envOk rawNeg).2 =
      [Call.usersGet u0, Call.prefsPost { user_id := u0, max_budget := some (-1) }] := by
  constructor
  · rfl
  · rfl

/-- C2 amended: no non-negativity validation is performed on max_budget,
min_size or rooms; a create request with a negative value in one of them is
accepted by request validation and proceeds to the upstream calls (starting
with the Users GET) exactly as a request with nonnegative values. -/
theorem claim2_amended (env : Env β γ) (raw : RawCreateRequest) (u : UUID)
    (m : Int) (hu : pyUUID raw.user_id = some u)
    (_hm : raw.max_budget = some m ∨ raw.min_size = some m ∨ raw.rooms = some m)
    (_hneg : m < 0) :
    handle_create env raw = create_user_preferences env
      { user_id := u
        max_budget := raw.max_budget
        min_size := raw.min_size
        location_area := raw.location_area
        rooms := raw.rooms } ∧
    (handle_create env raw).2.head? = some (Call.usersGet u) := by
  have h1 : handle_create env raw = create_user_preferences env
      { user_id := u
        max_budget := raw.max_budget
        min_size := raw.min_size
        location_area := raw.location_area
        rooms := raw.rooms } := by
    simp [handle_create, parse_create_request, hu]
  refine ⟨h1, ?_⟩
  rw [h1]
  exact create_trace_head env _

/-- Witness for C2 amended: the concrete request with max_budget = -1 and a
valid user id reaches the normal flow and its first action is the Users GET. -/
theorem claim2_witness :
    handle_create envOk rawNeg = create_user_preferences envOk
      { user_id := u0
        max_budget := rawNeg.max_budget
        min_size := rawNeg.min_size
        location_area := rawNeg.location_area
        rooms := rawNeg.rooms } ∧
    (handle_create envOk rawNeg).2.head? = some (Call.usersGet u0) :=
  claim2_amended envOk rawNeg u0 (-1) rfl (Or.inl rfl) (by decide)

/-- C5: fetch_preferences_for_user returns the empty list on upstream 404,
a one-element list wrapping the parsed body on upstream 200, and the 502
UpstreamError on any other status; hence the read flow for an existing user
with no stored preferences returns 200 with an empty preferences list. -/
theorem claim5 (env : Env β γ) (uid : UUID) :
    ((env.prefGetResp uid).status_code = 404 →
      fetch_preferences_for_user env uid = Except.ok []) ∧
    ((env.prefGetResp uid).status_code = 200 →
      fetch_preferences_for_user env uid =
        Except.ok [(env.prefGetResp uid).json]) ∧
    ((env.prefGetResp uid).status_code ≠ 404 →
      (env.prefGetResp uid).status_code ≠ 200 →
      fetch_preferences_for_user env uid = Except.error ⟨502,
        "Preferences microservice error on get: " ++
        toString (env.prefGetResp uid).status_code ++ " " ++
        (env.prefGetResp uid).text⟩) ∧
    (∀ user, fetch_user env uid = Except.ok user →
      (env.prefGetResp uid).status_code = 404 →
      ∃ body, (get_user_preferences env uid).1 =
          EndpointResult.success 200 body ∧
        body.preferences = [] ∧ body.user = user) := by
  refine ⟨fun h => ?_, fun h => ?_, fun h1 h2 => ?_, fun user hu h404 => ?_⟩
  · simp [fetch_preferences_for_user, h]
  · simp [fetch_preferences_for_user, h]
  · simp [fetch_preferences_for_user, h1, h2]
  · have hp : fetch_preferences_for_user env uid = Except.ok [] := by
      simp [fetch_preferences_for_user, h404]
    exact ⟨{ user := user, preferences := [], links := [
        ("self", "/user-preferences/" ++ uuidStr uid),
        ("user", env.usersBase ++ "/users/" ++ uuidStr uid),
        ("preferences", env.prefsBase ++ "/" ++ uuidStr uid)] },
      by simp [get_user_preferences, hu, hp], rfl, rfl⟩

/-- Witness for C5: 404, 200 and 500 upstream read responses, and the read
flow at a user with no stored preferences. -/
theorem claim5_witness :
    fetch_preferences_for_user envPrefsEmpty u0 = Except.ok [] ∧
    fetch_preferences_for_user envOk u0 = Except.ok ["pref-body"] ∧
    fetch_preferences_for_user envPrefs500 u0 = Except.error ⟨502,
      "Preferences microservice error on get: " ++ toString (500 : Nat) ++
      " " ++ "prefs down"⟩ ∧
    (∃ body, (get_user_preferences envPrefsEmpty u0).1 =
        EndpointResult.success 200 body ∧
      body.preferences = [] ∧ body.user = "user-body") := by
  exact ⟨(claim5 envPrefsEmpty u0).1 rfl, (claim5 envOk u0).2.1 rfl,
    (claim5 envPrefs500 u0).2.2.1 (by decide) (by decide),
    (claim5 envPrefsEmpty u0).2.2.2 "user-body" rfl rfl⟩

/-- C6: if fetch_user succeeds (upstream 200) and create_preferences
succeeds (upstream 200 or 201), the create flow returns 201 Created with
the fetched user record, the created preference record and the links
mapping. -/
theorem claim6 (env : Env β γ) (payload : UserPreferencesCreateRequest)
    (hu : (env.userResp payload.user_id).status_code = 200)
    (hp : (env.prefCreateResp (assemble_pref_payload payload)).status_code = 200 ∨
      (env.prefCreateResp (assemble_pref_payload payload)).status_code = 201) :
    (create_user_preferences env payload).1 = EndpointResult.success 201
      { user := (env.userResp payload.user_id).json
        preferences := (env.prefCreateResp (assemble_pref_payload payload)).json
        links := [
          ("self", "/user-preferences/" ++ uuidStr payload.user_id),
          ("user", env.usersBase ++ "/users/" ++ uuidStr payload.user_id),
          ("preferences", env.prefsBase ++ "/" ++ uuidStr payload.user_id)] } := by
  have hfu : fetch_user env payload.user_id =
      Except.ok (env.userResp payload.user_id).json := by
    simp [fetch_user, hu]
  have hcp : create_preferences env (assemble_pref_payload payload) =
      Except.ok (env.prefCreateResp (assemble_pref_payload payload)).json := by
    rcases hp with h | h <;> simp [create_preferences, h]
  simp [create_user_preferences, hfu, hcp]

/-- Witness for C6 at the all-success environment and the concrete request. -/
theorem claim6_witness :
    (create_user_preferences envOk payload0).1 = EndpointResult.success 201
      { user := (envOk.userResp payload0.user_id).json
        preferences :=
          (envOk.prefCreateResp (assemble_pref_payload payload0)).json
        links := [
          ("self", "/user-preferences/" ++ uuidStr payload0.user_id),
          ("user", envOk.usersBase ++ "/users/" ++ uuidStr payload0.user_id),
          ("preferences",
            envOk.prefsBase ++ "/" ++ uuidStr payload0.user_id)] } :=
  claim6 envOk payload0 rfl (Or.inr rfl)

/-- Inversion of a successful create flow: a success outcome forces status
201, the pass-through body, upstream user status 200 and upstream create
status 200 or 201. -/
theorem create_success_inv (env : Env β γ)
    (payload : UserPreferencesCreateRequest) (sc : Nat)
    (body : CompositeUserPreferences β γ)
    (hC : (create_user_preferences env payload).1 =
      EndpointResult.success sc body) :
    sc = 201 ∧
    body = { user := (env.userResp payload.user_id).json
             preferences :=
               (env.prefCreateResp (assemble_pref_payload payload)).json
             links := [
               ("self", "/user-preferences/" ++ uuidStr payload.user_id),
               ("user", env.usersBase ++ "/users/" ++ uuidStr payload.user_id),
               ("preferences",
                 env.prefsBase ++ "/" ++ uuidStr payload.user_id)] } ∧
    (env.userResp payload.user_id).status_code = 200 ∧
    ((env.prefCreateResp (assemble_pref_payload payload)).status_code = 200 ∨
     (env.prefCreateResp (assemble_pref_payload payload)).status_code = 201) := by
  by_cases h404 : (env.userResp payload.user_id).status_code = 404
  · simp [create_user_preferences, fetch_user, h404] at hC
  · by_cases h200 : (env.userResp payload.user_id).status_code = 200
    · have hfu : fetch_user env payload.user_id =
          Except.ok (env.userResp payload.user_id).json := by
        simp [fetch_user, h200]
      by_cases hp :
          (env.prefCreateResp (assemble_pref_payload payload)).status_code = 200 ∨
          (env.prefCreateResp (assemble_pref_payload payload)).status_code = 201
      · have hcp : create_preferences env (assemble_pref_payload payload) =
            Except.ok (env.prefCreateResp (assemble_pref_payload payload)).json := by
          rcases hp with h | h <;> simp [create_preferences, h]
        simp only [create_user_preferences, hfu, hcp] at hC
        rw [EndpointResult.success.injEq] at hC
        exact ⟨hC.1.symm, hC.2.symm, h200, hp⟩
      · have hcp : create_preferences env (assemble_pref_payload payload) =
            Except.error ⟨502, "Preferences microservice error on create: " ++
              toString (env.prefCreateResp (assemble_pref_payload payload)).status_code ++
              " " ++ (env.prefCreateResp (assemble_pref_payload payload)).text⟩ := by
          simp [create_preferences, hp]
        simp [create_user_preferences, hfu, hcp] at hC
    · have hfu : fetch_user env payload.user_id =
          Except.error ⟨502, "Users microservice error: " ++
            toString (env.userResp payload.user_id).status_code ++ " " ++
            (env.userResp payload.user_id).text⟩ := by
        simp [fetch_user, h404, h200]
      simp [create_user_preferences, hfu] at hC

/-- Inversion of a successful read flow: a success outcome forces status
200, upstream user status 200, the pass-through user body, the recorded
links, and a preferences list that is empty (upstream 404) or the wrapped
upstream body (upstream 200). -/
theorem read_success_inv (env : Env β γ) (uid : UUID) (sr : Nat)
    (body : CompositeUserPreferencesList β γ)
    (hR : (get_user_preferences env uid).1 = EndpointResult.success sr body) :
    sr = 200 ∧
    (env.userResp uid).status_code = 200 ∧
    body.user = (env.userResp uid).json ∧
    body.links = [
      ("self", "/user-preferences/" ++ uuidStr uid),
      ("user", env.usersBase ++ "/users/" ++ uuidStr uid),
      ("preferences", env.prefsBase ++ "/" ++ uuidStr uid)] ∧
    (((env.prefGetResp uid).status_code = 404 ∧ body.preferences = []) ∨
     ((env.prefGetResp uid).status_code = 200 ∧
       body.preferences = [(env.prefGetResp uid).json])) := by
  by_cases h404 : (env.userResp uid).status_code = 404
  · simp [get_user_preferences, fetch_user, h404] at hR
  · by_cases h200 : (env.userResp uid).status_code = 200
    · have hfu : fetch_user env uid = Except.ok (env.userResp uid).json := by
        simp [fetch_user, h200]
      by_cases hp404 : (env.prefGetResp uid).status_code = 404
      · have hfp : fetch_preferences_for_user env uid = Except.ok [] := by
          simp [fetch_preferences_for_user, hp404]
        simp only [get_user_preferences, hfu, hfp] at hR
        rw [EndpointResult.success.injEq] at hR
        refine ⟨hR.1.symm, h200, ?_, ?_, Or.inl ⟨hp404, ?_⟩⟩ <;> rw [← hR.2]
      · by_cases hp200 : (env.prefGetResp uid).status_code = 200
        · have hfp : fetch_preferences_for_user env uid =
              Except.ok [(env.prefGetResp uid).json] := by
            simp [fetch_preferences_for_user, hp404, hp200]
          simp only [get_user_preferences, hfu, hfp] at hR
          rw [EndpointResult.success.injEq] at hR
          refine ⟨hR.1.symm, h200, ?_, ?_, Or.inr ⟨hp200, ?_⟩⟩ <;> rw [← hR.2]
        · have hfp : fetch_preferences_for_user env uid =
              Except.error ⟨502, "Preferences microservice error on get: " ++
                toString (env.prefGetResp uid).status_code ++ " " ++
                (env.prefGetResp uid).text⟩ := by
            simp [fetch_preferences_for_user, hp404, hp200]
          simp [get_user_preferences, hfu, hfp] at hR
    · have hfu : fetch_user env uid =
          Except.error ⟨502, "Users microservice error: " ++
            toString (env.userResp uid).status_code ++ " " ++
            (env.userResp uid).text⟩ := by
        simp [fetch_user, h404, h200]
      simp [get_user_preferences, hfu] at hR

/-- C7: every PreferenceCreate payload posted by the create flow carries
exactly the inbound request's field values, and with an echoing Preferences
upstream the successful response's preferences fields equal the values
supplied in the request. -/
theorem claim7 (env : Env β γ) (envE : Env β PreferenceCreate)
    (payload : UserPreferencesCreateRequest)
    (hE : ∀ q, envE.prefCreateResp q = ⟨201, "", q⟩)
    (huE : (envE.userResp payload.user_id).status_code = 200) :
    (∀ p, Call.prefsPost p ∈ (create_user_preferences env payload).2 →
      p.user_id = payload.user_id ∧ p.max_budget = payload.max_budget ∧
      p.min_size = payload.min_size ∧
      p.location_area = payload.location_area ∧ p.rooms = payload.rooms) ∧
    (∃ body, (create_user_preferences envE payload).1 =
        EndpointResult.success 201 body ∧
      body.preferences.user_id = payload.user_id ∧
      body.preferences.max_budget = payload.max_budget ∧
      body.preferences.min_size = payload.min_size ∧
      body.preferences.location_area = payload.location_area ∧
      body.preferences.rooms = payload.rooms) := by
  constructor
  · intro p hp
    rcases h : fetch_user env payload.user_id with e | user
    · simp [create_user_preferences, h] at hp
    · rcases h2 : create_preferences env (assemble_pref_payload payload)
        with e | pref <;>
        simp [create_user_preferences, h, h2] at hp <;>
        · subst hp
          exact ⟨rfl, rfl, rfl, rfl, rfl⟩
  · have hfu : fetch_user envE payload.user_id =
        Except.ok (envE.userResp payload.user_id).json := by
      simp [fetch_user, huE]
    have hcp : create_preferences envE (assemble_pref_payload payload) =
        Except.ok (assemble_pref_payload payload) := by
      simp [create_preferences, hE (assemble_pref_payload payload)]
    refine ⟨{ user := (envE.userResp payload.user_id).json
              preferences := assemble_pref_payload payload
              links := [
                ("self", "/user-preferences/" ++ uuidStr payload.user_id),
                ("user",
                  envE.usersBase ++ "/users/" ++ uuidStr payload.user_id),
                ("preferences",
                  envE.prefsBase ++ "/" ++ uuidStr payload.user_id)] },
      by simp [create_user_preferences, hfu, hcp], rfl, rfl, rfl, rfl, rfl⟩

/-- Witness for C7 at the echoing environment and the concrete request. -/
theorem claim7_witness :
    (∀ p, Call.prefsPost p ∈ (create_user_preferences envEcho payload0).2 →
      p.user_id = payload0.user_id ∧ p.max_budget = payload0.max_budget ∧
      p.min_size = payload0.min_size ∧
      p.location_area = payload0.location_area ∧ p.rooms = payload0.rooms) ∧
    (∃ body, (create_user_preferences envEcho payload0).1 =
        EndpointResult.success 201 body ∧
      body.preferences.user_id = payload0.user_id ∧
      body.preferences.max_budget = payload0.max_budget ∧
      body.preferences.min_size = payload0.min_size ∧
      body.preferences.location_area = payload0.location_area ∧
      body.preferences.rooms = payload0.rooms) :=
  claim7 envEcho envEcho payload0 (fun _ => rfl) rfl

/-- C8: every successful create or read response carries a links mapping
with exactly the keys self, user and preferences, where the self link is
"/user-preferences/" followed by the request's user identifier. -/
theorem claim8 (envC envR : Env β γ) (payload : UserPreferencesCreateRequest)
    (uid : UUID) (sc : Nat) (bodyC : CompositeUserPreferences β γ)
    (sr : Nat) (bodyR : CompositeUserPreferencesList β γ)
    (hC : (create_user_preferences envC payload).1 =
      EndpointResult.success sc bodyC)
    (hR : (get_user_preferences envR uid).1 =
      EndpointResult.success sr bodyR) :
    bodyC.links.map Prod.fst = ["self", "user", "preferences"] ∧
    bodyC.links.lookup "self" =
      some ("/user-preferences/" ++ uuidStr payload.user_id) ∧
    bodyR.links.map Prod.fst = ["self", "user", "preferences"] ∧
    bodyR.links.lookup "self" = some ("/user-preferences/" ++ uuidStr uid) := by
  obtain ⟨-, hbody, -, -⟩ := create_success_inv envC payload sc bodyC hC
  obtain ⟨-, -, -, hlinks, -⟩ := read_success_inv envR uid sr bodyR hR
  subst hbody
  refine ⟨rfl, ?_, ?_, ?_⟩
  · simp [List.lookup]
  · rw [hlinks]
    rfl
  · rw [hlinks]
    simp [List.lookup]

/-- Witness for C8 at the all-success environment: both flows succeed and
the theorem yields the concrete links facts. -/
theorem claim8_witness :
    ({ user := "user-body", preferences := "pref-body",
       links := [
         ("self", "/user-preferences/12345678-1234-5678-1234-567812345678"),
         ("user",
           "https://users.example/users/12345678-1234-5678-1234-567812345678"),
         ("preferences",
           "http://prefs.example/12345678-1234-5678-1234-567812345678")] } :
        CompositeUserPreferences String String).links.lookup "self" =
      some ("/user-preferences/" ++ uuidStr u0) ∧
    ({ user := "user-body", preferences := ["pref-body"],
       links := [
         ("self", "/user-preferences/12345678-1234-5678-1234-567812345678"),
         ("user",
           "https://users.example/users/12345678-1234-5678-1234-567812345678"),
         ("preferences",
           "http://prefs.example/12345678-1234-5678-1234-567812345678")] } :
        CompositeUserPreferencesList String String).links.map Prod.fst =
      ["self", "user", "preferences"] := by
  have h := claim8 envOk envOk payload0 u0 201 _ 200 _ rfl rfl
  exact ⟨h.2.1, h.2.2.1⟩

/-- C9: successful responses pass the upstream bodies through unmodified:
the user field equals the Users service body, the create response's
preferences field equals the Preferences service body, and (for an upstream
200 read) the read response's preferences list wraps exactly the
Preferences service body. -/
theorem claim9 (envC envR : Env β γ) (payload : UserPreferencesCreateRequest)
    (uid : UUID) (sc : Nat) (bodyC : CompositeUserPreferences β γ)
    (sr : Nat) (bodyR : CompositeUserPreferencesList β γ)
    (hC : (create_user_preferences envC payload).1 =
      EndpointResult.success sc bodyC)
    (hR : (get_user_preferences envR uid).1 =
      EndpointResult.success sr bodyR)
    (hr200 : (envR.prefGetResp uid).status_code = 200) :
    bodyC.user = (envC.userResp payload.user_id).json ∧
    bodyC.preferences =
      (envC.prefCreateResp (assemble_pref_payload payload)).json ∧
    bodyR.user = (envR.userResp uid).json ∧
    bodyR.preferences = [(envR.prefGetResp uid).json] := by
  obtain ⟨-, hbody, -, -⟩ := create_success_inv envC payload sc bodyC hC
  obtain ⟨-, -, huser, -, hprefs⟩ := read_success_inv envR uid sr bodyR hR
  subst hbody
  refine ⟨rfl, rfl, huser, ?_⟩
  rcases hprefs with ⟨h404, -⟩ | ⟨-, h⟩
  · rw [hr200] at h404
    exact absurd h404 (by decide)
  · exact h

/-- Witness for C9 at the all-success environment. -/
theorem claim9_witness :
    ({ user := "user-body", preferences := "pref-body",
       links := [
         ("self", "/user-preferences/12345678-1234-5678-1234-567812345678"),
         ("user",
           "https://users.example/users/12345678-1234-5678-1234-567812345678"),
         ("preferences",
           "http://prefs.example/12345678-1234-5678-1234-567812345678")] } :
        CompositeUserPreferences String String).user =
      (envOk.userResp payload0.user_id).json ∧
    ({ user := "user-body", preferences := ["pref-body"],
       links := [
         ("self", "/user-preferences/12345678-1234-5678-1234-567812345678"),
         ("user",
           "https://users.example/users/12345678-1234-5678-1234-567812345678"),
         ("preferences",
           "http://prefs.example/12345678-1234-5678-1234-567812345678")] } :
        CompositeUserPreferencesList String String).preferences =
      [(envOk.prefGetResp u0).json] := by
  have h := claim9 envOk envOk payload0 u0 201 _ 200 _ rfl rfl rfl
  exact ⟨h.1, h.2.2.2⟩

/-- C10: an inbound request whose user identifier does not parse as a UUID
(body field for the create flow, path parameter for the read flow) is
answered with the 422 request-validation error and no upstream call is
issued. -/
theorem claim10 (env : Env β γ) (raw : RawCreateRequest) (s : String)
    (h1 : pyUUID raw.user_id = none) (h2 : pyUUID s = none) :
    handle_create env raw =
      (EndpointResult.errorResp 422 validationErrorDetail, []) ∧
    handle_get env s =
      (EndpointResult.errorResp 422 validationErrorDetail, []) := by
  constructor
  · simp [handle_create, parse_create_request, h1]
  · simp [handle_get, h2]

/-- Witness for C10 at two concrete malformed identifiers. -/
theorem claim10_witness :
    handle_create envOk rawBad =
      (EndpointResult.errorResp 422 validationErrorDetail, []) ∧
    handle_get envOk "1234" =
      (EndpointResult.errorResp 422 validationErrorDetail, []) :=
  claim10 envOk rawBad "1234" (by decide) (by decide)

end PrefMatch
